import Mathlib

/-
Verification of the order / order-items schema of the cdk-demo repository.

The behaviour under study lives in the SQL migrations
(V1__Initial_schema.sql, V2__Add_orders_table.sql, V3__Add_order_items_table.sql):
the `app.orders` and `app.order_items` tables with their CHECK constraints,
the `app.calculate_order_total` function, the `app.update_order_total`
trigger chain that keeps `orders.total_amount` in sync with the items, and
the `app.generate_order_number` function.

Modelling conventions:
  - NUMERIC(12,2) money amounts are modelled exactly as integer cents
    (`Int`); `quantity` is an `Int` as in the INTEGER column. All the
    arithmetic in the constraints is then exact, as it is in NUMERIC.
  - UUID columns are modelled as `Nat` identifiers; TIMESTAMP columns as
    `Nat` instants (`Option Nat` for nullable ones).
  - A table is a list of rows; the database state is the pair of tables.
  - SQL aggregate `SUM` returns NULL on an empty set, modelled by
    `Option Int`; `COALESCE(x, 0)` is `Option.getD x 0`.
  - A statement that violates a constraint aborts its transaction: a
    mutation is a function `DBState → Option DBState`, `none` meaning the
    transaction aborted and the state is unchanged.
-/

namespace OrderDB

/-- Embedding of the enum `app.order_status` from V2__Add_orders_table.sql. -/
inductive OrderStatus
| pending
| processing
| confirmed
| shipped
| delivered
| cancelled
| failed
deriving DecidableEq, Repr

/-- Embedding of a row of `app.orders` (V2__Add_orders_table.sql), keeping the
columns that participate in constraints, triggers or views relevant to the
claims. JSONB payload columns and free-text columns carry no constraint and
are omitted. -/
structure OrderRow where
  id : Nat
  order_number : String
  customer_id : Nat
  customer_email : String
  customer_name : String
  status : OrderStatus
  total_amount : Int
  currency : String
  processed_at : Option Nat
  confirmed_at : Option Nat
  shipped_at : Option Nat
  delivered_at : Option Nat
  cancelled_at : Option Nat
  created_at : Nat
  updated_at : Nat
deriving DecidableEq, Repr

/-- Embedding of a row of `app.order_items` (V3__Add_order_items_table.sql),
keeping every column that appears in a CHECK constraint or in the
total-maintenance trigger. -/
structure OrderItemRow where
  id : Nat
  order_id : Nat
  item_number : Nat
  product_id : Nat
  product_sku : String
  product_name : String
  quantity : Int
  unit_price : Int
  discount_amount : Int
  tax_amount : Int
  total_price : Int
  currency : String
  weight_kg : Option Int
  created_at : Nat
  updated_at : Nat
deriving DecidableEq, Repr

/-- The database state: the two tables of the `app` schema that the claims
are about. -/
structure DBState where
  orders : List OrderRow
  order_items : List OrderItemRow
deriving DecidableEq, Repr

/-- Character class `[A-Za-z0-9._%+-]` of the local part of the
`valid_email` CHECK regex in V2__Add_orders_table.sql. -/
def emailLocalChar (c : Char) : Bool :=
  c.isAlpha || c.isDigit || c = '.' || c = '_' || c = '%' || c = '+' || c = '-'

/-- Character class `[A-Za-z0-9.-]` of the domain part of the `valid_email`
CHECK regex. -/
def emailDomainChar (c : Char) : Bool :=
  c.isAlpha || c.isDigit || c = '.' || c = '-'

/-- Embedding of the anchored regex
`^[A-Za-z0-9._%+-]+@[A-Za-z0-9.-]+\.[A-Za-z]{2,}$` of the `valid_email`
CHECK constraint (the `~*` case-insensitivity changes nothing: every class
already contains both cases). A string matches iff it splits as
local `@` domain `.` tld with the classes and lengths of the regex. -/
def valid_email (s : String) : Bool :=
  let cs := s.toList
  (List.range (cs.length + 1)).any (fun i =>
    match cs.drop i with
    | '@' :: r =>
      decide (cs.take i ≠ []) && (cs.take i).all emailLocalChar &&
      (List.range (r.length + 1)).any (fun j =>
        match r.drop j with
        | '.' :: t =>
          decide (r.take j ≠ []) && (r.take j).all emailDomainChar &&
          decide (2 ≤ t.length) && t.all Char.isAlpha
        | _ => false)
    | _ => false)

/-- Embedding of the `valid_status_transitions` CHECK constraint of
`app.orders` (V2__Add_orders_table.sql): literally the disjunction written
in the migration, including its last disjunct `(status = 'failed')` which
requires no timestamp. -/
def valid_status_transitions (o : OrderRow) : Bool :=
  (o.status = OrderStatus.pending) ||
  (o.status = OrderStatus.processing && o.processed_at.isSome) ||
  (o.status = OrderStatus.confirmed && o.confirmed_at.isSome) ||
  (o.status = OrderStatus.shipped && o.shipped_at.isSome) ||
  (o.status = OrderStatus.delivered && o.delivered_at.isSome) ||
  (o.status = OrderStatus.cancelled && o.cancelled_at.isSome) ||
  (o.status = OrderStatus.failed)

/-- Row-level constraints of `app.orders`: `total_amount >= 0`,
`valid_email`, `valid_currency` (LENGTH(currency) = 3) and
`valid_status_transitions`. -/
def ordersRowCheck (o : OrderRow) : Bool :=
  decide (0 ≤ o.total_amount) &&
  valid_email o.customer_email &&
  (o.currency.length = 3) &&
  valid_status_transitions o

/-- Row-level constraints of `app.order_items`: the column CHECKs
(`quantity > 0`, `unit_price >= 0`, `discount_amount >= 0`,
`tax_amount >= 0`, `total_price >= 0`, `weight_kg >= 0` when present),
`valid_currency`, and the table CHECK `valid_total_price`
(`total_price = quantity * unit_price - discount_amount + tax_amount`). -/
def orderItemRowCheck (r : OrderItemRow) : Bool :=
  decide (0 < r.quantity) &&
  decide (0 ≤ r.unit_price) &&
  decide (0 ≤ r.discount_amount) &&
  decide (0 ≤ r.tax_amount) &&
  decide (0 ≤ r.total_price) &&
  (r.currency.length = 3) &&
  (match r.weight_kg with
   | none => true
   | some w => decide (0 ≤ w)) &&
  decide (r.total_price = r.quantity * r.unit_price - r.discount_amount + r.tax_amount)

/-- Key constraints of `app.order_items`: the `id` primary key and the
`unique_order_item_number UNIQUE(order_id, item_number)` constraint, over
the whole table. -/
def itemsKeysOK : List OrderItemRow → Bool
  | [] => true
  | r :: rs =>
    rs.all (fun s =>
      decide (r.id ≠ s.id) &&
      decide (¬ (r.order_id = s.order_id ∧ r.item_number = s.item_number))) &&
    itemsKeysOK rs

/-- SQL `SUM` over a list of values: NULL (`none`) on the empty set,
otherwise the sum. -/
def sqlSum : List Int → Option Int
  | [] => none
  | x :: xs => some (x + (sqlSum xs).getD 0)

/-- Embedding of `app.calculate_order_total(p_order_id)` from
V3__Add_order_items_table.sql:
`SELECT COALESCE(SUM(total_price), 0) FROM app.order_items WHERE order_id = p_order_id`. -/
def calculate_order_total (items : List OrderItemRow) (p_order_id : Nat) : Int :=
  (sqlSum ((items.filter (fun r => r.order_id == p_order_id)).map
    (fun r => r.total_price))).getD 0

/-- `COALESCE(NEW.order_id, OLD.order_id)` as used by the trigger; the
`order_id` column is NOT NULL, so a present row always contributes its id. -/
def coalesceOrderId (newRow oldRow : Option OrderItemRow) : Option Nat :=
  match newRow with
  | some r => some r.order_id
  | none => oldRow.map (fun r => r.order_id)

/-- Embedding of the trigger function `app.update_order_total()` from
V3__Add_order_items_table.sql. It runs AFTER the item mutation, so `st`
already reflects the new `order_items` table; it updates the `app.orders`
rows whose `id` equals `COALESCE(NEW.order_id, OLD.order_id)`, setting
`total_amount` to `app.calculate_order_total` of that id and `updated_at`
to the current timestamp (the `update_orders_updated_at` BEFORE trigger of
V1/V2 writes the same `updated_at`). -/
def update_order_total (st : DBState) (newRow oldRow : Option OrderItemRow)
    (now : Nat) : DBState :=
  match coalesceOrderId newRow oldRow with
  | none => st
  | some oid =>
    { st with orders := st.orders.map (fun o =>
        if o.id == oid then
          { o with total_amount := calculate_order_total st.order_items oid,
                   updated_at := now }
        else o) }

/-- After the trigger has written the parent order, the engine re-checks the
row constraints of every `app.orders` row the UPDATE touched; a violation
aborts the transaction. -/
def checkTouched (st : DBState) (oid : Nat) : Bool :=
  (st.orders.filter (fun o => o.id == oid)).all ordersRowCheck

/-- The three item mutations the migration attaches triggers to: INSERT,
single-row UPDATE (identified by the item `id`; the row's columns are
replaced by those of `r`, keeping the key), and single-row DELETE. -/
inductive Mutation
| insertItem (r : OrderItemRow) (now : Nat)
| updateItem (itemId : Nat) (r : OrderItemRow) (now : Nat)
| deleteItem (itemId : Nat) (now : Nat)
deriving DecidableEq, Repr

/-- Row of `app.order_items` with the given primary key, when present. -/
def lookupItem (st : DBState) (itemId : Nat) : Option OrderItemRow :=
  st.order_items.find? (fun r => r.id == itemId)

/-- The `order_id REFERENCES app.orders(id)` foreign key. -/
def orderExists (st : DBState) (oid : Nat) : Bool :=
  st.orders.any (fun o => o.id == oid)

/-- One item mutation run as a transaction: the row constraints, the key
and foreign-key constraints are checked, the table is changed, the AFTER
trigger `update_order_total` fires, and the constraints of the touched
`app.orders` row are re-checked. Any violation yields `none`: the
transaction aborts. An UPDATE or DELETE whose key matches no row commits
as a no-op without firing the row trigger. -/
def tryMutation (st : DBState) : Mutation → Option DBState
  | Mutation.insertItem r now =>
    let items1 := st.order_items ++ [r]
    if orderItemRowCheck r && orderExists st r.order_id && itemsKeysOK items1 then
      let st2 := update_order_total { st with order_items := items1 } (some r) none now
      if checkTouched st2 r.order_id then some st2 else none
    else none
  | Mutation.updateItem itemId r now =>
    match lookupItem st itemId with
    | none => some st
    | some oldRow =>
      let rNew : OrderItemRow := { r with id := itemId, updated_at := now }
      let items1 := st.order_items.map (fun s => if s.id == itemId then rNew else s)
      if orderItemRowCheck rNew && orderExists st rNew.order_id && itemsKeysOK items1 then
        let st2 := update_order_total { st with order_items := items1 }
          (some rNew) (some oldRow) now
        if checkTouched st2 rNew.order_id then some st2 else none
      else none
  | Mutation.deleteItem itemId now =>
    match lookupItem st itemId with
    | none => some st
    | some oldRow =>
      let items1 := st.order_items.filter (fun s => !(s.id == itemId))
      let st2 := update_order_total { st with order_items := items1 }
        none (some oldRow) now
      if checkTouched st2 oldRow.order_id then some st2 else none

/-- The state after an attempted mutation: on abort (`none`) the state is
exactly what it was before. -/
def applyMutation (st : DBState) (m : Mutation) : DBState :=
  (tryMutation st m).getD st

/-- A sequence of item mutations, applied in order. -/
def applyMutations (st : DBState) (ms : List Mutation) : DBState :=
  ms.foldl applyMutation st

/-- The invariant of spec section 8: every order's `total_amount` equals the
sum of `total_price` over its current `order_items` rows. -/
def totalsInvariant (st : DBState) : Prop :=
  ∀ o ∈ st.orders, o.total_amount = calculate_order_total st.order_items o.id

instance (st : DBState) : Decidable (totalsInvariant st) := by
  unfold totalsInvariant
  exact List.decidableBAll _ st.orders

/-- The update mutations among item mutations that keep the item attached to
the same order; inserts and deletes are unrestricted. -/
def preservesOrderRef (st : DBState) : Mutation → Prop
  | Mutation.updateItem itemId r _ =>
    ∀ oldRow, lookupItem st itemId = some oldRow → r.order_id = oldRow.order_id
  | _ => True

/-- Postgres `LPAD(s, n, c)`: pad on the left to length `n`, truncating to
the leftmost `n` characters when `s` is longer. -/
def lpad (s : String) (n : Nat) (c : Char) : String :=
  if n ≤ s.length then (s.toList.take n).asString
  else ((List.replicate (n - s.length) c).asString) ++ s

/-- The candidate produced by one loop iteration of
`app.generate_order_number` (V1__Initial_schema.sql):
`'ORD-' || TO_CHAR(CURRENT_DATE, 'YYYYMMDD') || '-' || LPAD(FLOOR(RANDOM() * 999999)::TEXT, 6, '0')`,
with the date rendered as `dateStr` and the value of
`FLOOR(RANDOM() * 999999)` given as `r`. -/
def mkOrderNumber (dateStr : String) (r : Nat) : String :=
  "ORD-" ++ dateStr ++ "-" ++ lpad (toString r) 6 '0'

/-- Embedding of the loop's uniqueness test exactly as the migration writes
it: `SELECT EXISTS(SELECT 1 FROM app.orders WHERE order_number = order_number)`.
The WHERE clause compares the `order_number` column with itself (the freshly
generated candidate is never mentioned), so on a NOT NULL column the test is
true on every row: it holds exactly when `app.orders` is non-empty. -/
def orderNumberExistsCheck (orders : List OrderRow) : Bool :=
  orders.any (fun o => o.order_number == o.order_number)

/-- Embedding of `app.generate_order_number()`: generate a candidate from
the next random draw, exit the loop when the EXISTS test is false, else
repeat. The stream `rs` supplies the successive values of
`FLOOR(RANDOM() * 999999)`; exhausting the stream (`none`) models a loop
that has not terminated within `rs.length` iterations. -/
def generate_order_number (orders : List OrderRow) (dateStr : String) :
    List Nat → Option String
  | [] => none
  | r :: rs =>
    if orderNumberExistsCheck orders then generate_order_number orders dateStr rs
    else some (mkOrderNumber dateStr r)

/-- The `total_amount` of the order with the given id, when present (the
projection the spec scenario reads back). -/
def orderTotal (st : DBState) (oid : Nat) : Option Int :=
  (st.orders.find? (fun o => o.id == oid)).map (fun o => o.total_amount)

/-- A freshly created pending order with no items (spec lifecycle: created
in pending status, total 0). -/
def sampleOrder : OrderRow :=
  { id := 1, order_number := "ORD-20260101-000001", customer_id := 7,
    customer_email := "a@b.co", customer_name := "Ann",
    status := OrderStatus.pending, total_amount := 0, currency := "USD",
    processed_at := none, confirmed_at := none, shipped_at := none,
    delivered_at := none, cancelled_at := none, created_at := 0, updated_at := 0 }

/-- The same order once it carries a 20.00 item (amounts in cents). -/
def sampleOrder2000 : OrderRow :=
  { sampleOrder with total_amount := 2000 }

/-- A second, distinct order with no items. -/
def secondOrder : OrderRow :=
  { sampleOrder with id := 2, order_number := "ORD-20260101-000002" }

/-- An order in status `failed` with every status timestamp NULL. -/
def failedOrder : OrderRow :=
  { sampleOrder with
    id := 3, order_number := "ORD-20260101-000003",
    status := OrderStatus.failed }

/-- An order in status `processing` with `processed_at` set. -/
def processingOrder : OrderRow :=
  { sampleOrder with
    id := 4, order_number := "ORD-20260101-000004",
    status := OrderStatus.processing, processed_at := some 10 }

/-- Spec scenario item 1: quantity 2 at 10.00, no discount, no tax (cents). -/
def item1 : OrderItemRow :=
  { id := 11, order_id := 1, item_number := 1, product_id := 100,
    product_sku := "SKU1", product_name := "Widget",
    quantity := 2, unit_price := 1000, discount_amount := 0, tax_amount := 0,
    total_price := 2000, currency := "USD", weight_kg := none,
    created_at := 0, updated_at := 0 }

/-- Spec scenario item 2: quantity 1 at 5.00 (cents). -/
def item2 : OrderItemRow :=
  { item1 with
    id := 12, item_number := 2, quantity := 1, unit_price := 500,
    total_price := 500 }

/-- An item whose `total_price` violates the `valid_total_price` CHECK. -/
def badPriceItem : OrderItemRow :=
  { item1 with id := 13, item_number := 3, total_price := 999 }

/-- An item with `quantity = 0`, violating the `quantity > 0` CHECK. -/
def zeroQtyItem : OrderItemRow :=
  { item1 with id := 14, item_number := 4, quantity := 0, total_price := 0 }

/-- An item with a negative `unit_price`, violating `unit_price >= 0`. -/
def negPriceItem : OrderItemRow :=
  { item1 with
    id := 15, item_number := 5, unit_price := -100,
    total_price := -200 }

/-- The scenario's starting state: one pending order, no items. -/
def baseState : DBState := { orders := [sampleOrder], order_items := [] }

/-- One order holding exactly one item, totals in sync. -/
def stOneItem : DBState := { orders := [sampleOrder2000], order_items := [item1] }

/-- Two orders, the first holding the only item, totals in sync. -/
def stTwoOrders : DBState :=
  { orders := [sampleOrder2000, secondOrder], order_items := [item1] }

/-- `item1` re-attached to the second order. -/
def movedItem : OrderItemRow := { item1 with order_id := 2 }

/-- The UPDATE that moves `item1` from order 1 to order 2. -/
def muMove : Mutation := Mutation.updateItem 11 movedItem 5

/-- Scenario state after inserting item 1 at time 1. -/
def scen1 : DBState := applyMutation baseState (Mutation.insertItem item1 1)

/-- Scenario state after also inserting item 2 at time 2. -/
def scen2 : DBState := applyMutation scen1 (Mutation.insertItem item2 2)

/-- Scenario state after then deleting item 1 at time 3. -/
def scen3 : DBState := applyMutation scen2 (Mutation.deleteItem 11 3)

/-- The expected order row after deleting the last remaining item of
`stOneItem` at time 3. -/
def orderAfterDelete : OrderRow :=
  { sampleOrder2000 with total_amount := 0, updated_at := 3 }

/-- Helper: the order total of a one-row-longer table, unfolded. -/
theorem calc_cons (r : OrderItemRow) (l : List OrderItemRow) (oid : Nat) :
    calculate_order_total (r :: l) oid =
      (if r.order_id == oid then r.total_price else 0) + calculate_order_total l oid := by
  by_cases h : r.order_id == oid <;>
    simp [calculate_order_total, List.filter_cons, h, sqlSum]

/-- Helper: the empty table has total 0 for every order. -/
theorem calc_nil (oid : Nat) : calculate_order_total [] oid = 0 := rfl

/-- Helper: the order total is additive under table concatenation. -/
theorem calc_append (l1 l2 : List OrderItemRow) (oid : Nat) :
    calculate_order_total (l1 ++ l2) oid =
      calculate_order_total l1 oid + calculate_order_total l2 oid := by
  induction l1 with
  | nil => simp [calc_nil]
  | cons r l ih =>
    rw [List.cons_append, calc_cons, calc_cons, ih]
    ring

/-- Helper: removing rows of a different order leaves the total unchanged. -/
theorem calc_filter_of_ne (l : List OrderItemRow) (i oid : Nat)
    (h : ∀ s ∈ l, s.order_id = oid → s.id ≠ i) :
    calculate_order_total (l.filter (fun s => !(s.id == i))) oid =
      calculate_order_total l oid := by
  induction l with
  | nil => rfl
  | cons r l ih =>
    have hl : ∀ s ∈ l, s.order_id = oid → s.id ≠ i :=
      fun s hs => h s (List.mem_cons_of_mem _ hs)
    by_cases hi : r.id = i
    · have hr : ¬ r.order_id = oid := fun ho => h r (List.mem_cons_self r l) ho hi
      have hcond : (!(r.id == i)) = false := by simp [hi]
      rw [List.filter_cons, hcond, if_neg Bool.false_ne_true]
      rw [ih hl, calc_cons]
      simp [hr]
    · have hcond : (!(r.id == i)) = true := by simp [hi]
      rw [List.filter_cons, hcond, if_pos rfl]
      rw [calc_cons, calc_cons, ih hl]

/-- Helper: a row rewrite that fixes every row of the order, or moves rows
only between other orders, leaves the order's total unchanged. -/
theorem calc_map_of_untouched (l : List OrderItemRow) (f : OrderItemRow → OrderItemRow)
    (oid : Nat)
    (h : ∀ s ∈ l, f s = s ∨ (s.order_id ≠ oid ∧ (f s).order_id ≠ oid)) :
    calculate_order_total (l.map f) oid = calculate_order_total l oid := by
  induction l with
  | nil => rfl
  | cons r l ih =>
    have hl := fun s hs => h s (List.mem_cons_of_mem _ hs)
    rw [List.map_cons, calc_cons, calc_cons, ih hl]
    rcases h r (List.mem_cons_self r l) with hr | ⟨h1, h2⟩
    · rw [hr]
    · simp [h1, h2]

/-- Helper: under the key constraints, the row found by primary key is the
only row bearing that key. -/
theorem keysOK_id_unique (l : List OrderItemRow) (i : Nat) (oldRow : OrderItemRow)
    (hk : itemsKeysOK l = true)
    (hf : l.find? (fun r => r.id == i) = some oldRow) :
    ∀ s ∈ l, s.id = i → s = oldRow := by
  induction l with
  | nil => simp at hf
  | cons r rs ih =>
    have hk1 : (rs.all (fun s =>
        decide (r.id ≠ s.id) &&
        decide (¬ (r.order_id = s.order_id ∧ r.item_number = s.item_number)))) = true ∧
        itemsKeysOK rs = true := by
      simpa [itemsKeysOK, Bool.and_eq_true] using hk
    by_cases hp : r.id = i
    · rw [List.find?_cons_of_pos _ (by simp [hp])] at hf
      obtain rfl : r = oldRow := by injection hf
      intro s hs hsi
      rcases List.mem_cons.mp hs with rfl | hs'
      · rfl
      · exfalso
        have := List.all_eq_true.mp hk1.1 s hs'
        simp only [Bool.and_eq_true, decide_eq_true_eq] at this
        exact this.1 (hp.trans hsi.symm)
    · rw [List.find?_cons_of_neg _ (by simp [hp])] at hf
      intro s hs hsi
      rcases List.mem_cons.mp hs with rfl | hs'
      · exact absurd hsi hp
      · exact ih hk1.2 hf s hs' hsi

/-- Helper: an order none of whose rows remain has total 0. -/
theorem calc_zero_of_none (l : List OrderItemRow) (oid : Nat)
    (h : ∀ s ∈ l, s.order_id ≠ oid) : calculate_order_total l oid = 0 := by
  induction l with
  | nil => rfl
  | cons r l ih =>
    rw [calc_cons, ih (fun s hs => h s (List.mem_cons_of_mem _ hs))]
    have hr : ¬ r.order_id = oid := h r (List.mem_cons_self r l)
    simp [hr]

/-- Helper: after the trigger has recomputed the affected order from the
current items, the totals invariant holds as soon as the untouched orders
already agreed with the current items. -/
theorem invariant_after_trigger (st1 : DBState) (newRow oldRow : Option OrderItemRow)
    (now : Nat) (oid : Nat)
    (hco : coalesceOrderId newRow oldRow = some oid)
    (hrest : ∀ o ∈ st1.orders, o.id ≠ oid →
      o.total_amount = calculate_order_total st1.order_items o.id) :
    totalsInvariant (update_order_total st1 newRow oldRow now) := by
  intro o' ho'
  simp only [update_order_total, hco] at ho' ⊢
  rw [List.mem_map] at ho'
  obtain ⟨o, ho, rfl⟩ := ho'
  by_cases hid : o.id = oid
  · simp [hid]
  · simp only [beq_iff_eq, hid, if_false]
    exact hrest o ho hid

/-- Claim C1 (amended). The claim as written fails on an UPDATE that moves
an item to a different order (see the counterexample): the trigger
recomputes only `NEW.order_id`. Amended: after any insert or delete of an
`app.order_items` row, and after any update that does not change the row's
`order_id`, every order's `total_amount` equals the sum of `total_price`
over its current items, provided this held before the mutation and the
item keys were unique; hence it holds over all sequences of such
mutations. -/
theorem totals_invariant_preserved (st : DBState) (m : Mutation)
    (hkeys : itemsKeysOK st.order_items = true)
    (href : preservesOrderRef st m)
    (hinv : totalsInvariant st) :
    totalsInvariant (applyMutation st m) := by
  cases m with
  | insertItem r now =>
    rcases htry : tryMutation st (Mutation.insertItem r now) with _ | st2
    · rw [applyMutation, htry]; exact hinv
    · rw [applyMutation, htry, Option.getD_some]
      simp only [tryMutation] at htry
      split at htry
      · split at htry
        · injection htry with h
          subst h
          apply invariant_after_trigger _ (some r) none now r.order_id rfl
          intro o ho hne
          show o.total_amount = calculate_order_total (st.order_items ++ [r]) o.id
          rw [calc_append]
          have h1 : calculate_order_total [r] o.id = 0 := by
            apply calc_zero_of_none
            intro s hs
            rw [List.mem_singleton] at hs
            subst hs
            exact fun h => hne h.symm
          rw [h1, add_zero]
          exact hinv o ho
        · exact absurd htry (by simp)
      · exact absurd htry (by simp)
  | updateItem itemId r now =>
    rcases hlook : lookupItem st itemId with _ | oldRow
    · have happ : applyMutation st (Mutation.updateItem itemId r now) = st := by
        simp [applyMutation, tryMutation, hlook]
      rw [happ]; exact hinv
    · have href' : r.order_id = oldRow.order_id := href oldRow hlook
      rcases htry : tryMutation st (Mutation.updateItem itemId r now) with _ | st2
      · rw [applyMutation, htry]; exact hinv
      · rw [applyMutation, htry, Option.getD_some]
        simp only [tryMutation, hlook] at htry
        split at htry
        · split at htry
          · injection htry with h
            subst h
            apply invariant_after_trigger _ (some _) (some oldRow) now
              ({ r with id := itemId, updated_at := now } : OrderItemRow).order_id rfl
            intro o ho hne
            show o.total_amount = calculate_order_total
              (st.order_items.map (fun s =>
                if s.id == itemId then { r with id := itemId, updated_at := now } else s)) o.id
            rw [calc_map_of_untouched]
            · exact hinv o ho
            · intro s hs
              by_cases hsid : s.id = itemId
              · right
                have hs_old : s = oldRow := keysOK_id_unique _ _ _ hkeys hlook s hs hsid
                have hso : s.order_id = r.order_id := by rw [hs_old]; exact href'.symm
                have hfs : (if s.id == itemId then
                    ({ r with id := itemId, updated_at := now } : OrderItemRow) else s).order_id
                    = r.order_id := by simp [hsid]
                constructor
                · rw [hso]; exact fun h => hne h.symm
                · rw [hfs]; exact fun h => hne h.symm
              · left
                simp [hsid]
          · exact absurd htry (by simp)
        · exact absurd htry (by simp)
  | deleteItem itemId now =>
    rcases hlook : lookupItem st itemId with _ | oldRow
    · have happ : applyMutation st (Mutation.deleteItem itemId now) = st := by
        simp [applyMutation, tryMutation, hlook]
      rw [happ]; exact hinv
    · rcases htry : tryMutation st (Mutation.deleteItem itemId now) with _ | st2
      · rw [applyMutation, htry]; exact hinv
      · rw [applyMutation, htry, Option.getD_some]
        simp only [tryMutation, hlook] at htry
        split at htry
        · injection htry with h
          subst h
          apply invariant_after_trigger _ none (some oldRow) now oldRow.order_id rfl
          intro o ho hne
          show o.total_amount = calculate_order_total
            (st.order_items.filter (fun s => !(s.id == itemId))) o.id
          rw [calc_filter_of_ne]
          · exact hinv o ho
          · intro s hs hso hsid
            have hs_old : s = oldRow := keysOK_id_unique _ _ _ hkeys hlook s hs hsid
            exact hne (by rw [← hso, hs_old])
        · exact absurd htry (by simp)

/-- Claim C1, counterexample: from a consistent two-order state, moving the
only item of order 1 to order 2 by UPDATE commits, yet afterwards order 1's
`total_amount` no longer equals the sum over its items. -/
theorem totals_invariant_counterexample :
    totalsInvariant stTwoOrders ∧
    itemsKeysOK stTwoOrders.order_items = true ∧
    (tryMutation stTwoOrders muMove).isSome = true ∧
    ¬ totalsInvariant (applyMutation stTwoOrders muMove) :=
  ⟨by decide, by decide, by decide, by decide⟩

/-- Claim C1, witness: the amended theorem applied to inserting the first
item into the base state. -/
theorem totals_invariant_preserved_witness :
    totalsInvariant (applyMutation baseState (Mutation.insertItem item1 1)) :=
  totals_invariant_preserved baseState (Mutation.insertItem item1 1)
    (by decide) trivial (by decide)

/-- Helper: an accepted item row satisfies the `valid_total_price` equation. -/
theorem total_price_of_check (r : OrderItemRow) (h : orderItemRowCheck r = true) :
    r.total_price = r.quantity * r.unit_price - r.discount_amount + r.tax_amount := by
  unfold orderItemRowCheck at h
  simp only [Bool.and_eq_true, decide_eq_true_eq] at h
  exact h.2

/-- Helper: a row that breaks the total-price equation fails the row check. -/
theorem check_false_of_bad_total (r : OrderItemRow)
    (h : r.total_price ≠ r.quantity * r.unit_price - r.discount_amount + r.tax_amount) :
    orderItemRowCheck r = false := by
  unfold orderItemRowCheck
  rw [decide_eq_false h]
  simp

/-- Claim C2: every accepted `app.order_items` row satisfies
`total_price = quantity * unit_price - discount_amount + tax_amount` (when
discount and tax are 0, `total_price = quantity * unit_price`), an insert
that commits carries such a row, and a row violating the equation makes
both INSERT and UPDATE abort. -/
theorem total_price_equation (r : OrderItemRow) :
    (orderItemRowCheck r = true →
      r.total_price = r.quantity * r.unit_price - r.discount_amount + r.tax_amount) ∧
    (orderItemRowCheck r = true → r.discount_amount = 0 → r.tax_amount = 0 →
      r.total_price = r.quantity * r.unit_price) ∧
    (∀ st now st', tryMutation st (Mutation.insertItem r now) = some st' →
      r.total_price = r.quantity * r.unit_price - r.discount_amount + r.tax_amount) ∧
    (r.total_price ≠ r.quantity * r.unit_price - r.discount_amount + r.tax_amount →
      (∀ st now, tryMutation st (Mutation.insertItem r now) = none) ∧
      (∀ st itemId oldRow now, lookupItem st itemId = some oldRow →
        tryMutation st (Mutation.updateItem itemId r now) = none)) := by
  refine ⟨total_price_of_check r, ?_, ?_, ?_⟩
  · intro h h0 ht
    rw [total_price_of_check r h, h0, ht]
    ring
  · intro st now st' h
    simp only [tryMutation] at h
    split at h
    case isTrue hc =>
      refine total_price_of_check r ?_
      simp only [Bool.and_eq_true] at hc
      exact hc.1.1
    case isFalse hc => exact absurd h (by simp)
  · intro hne
    have hf : orderItemRowCheck r = false := check_false_of_bad_total r hne
    constructor
    · intro st now
      simp [tryMutation, hf]
    · intro st itemId oldRow now hlook
      have hf2 : orderItemRowCheck ({ r with id := itemId, updated_at := now }) = false :=
        check_false_of_bad_total _ hne
      simp [tryMutation, hlook, hf2]

/-- Claim C2, witness: the equation at the accepted `item1`, its
zero-discount boundary, and the rejection of `badPriceItem`. -/
theorem total_price_equation_witness :
    item1.total_price
      = item1.quantity * item1.unit_price - item1.discount_amount + item1.tax_amount ∧
    item1.total_price = item1.quantity * item1.unit_price ∧
    tryMutation baseState (Mutation.insertItem badPriceItem 1) = none :=
  ⟨(total_price_equation item1).1 (by decide),
   (total_price_equation item1).2.1 (by decide) (by decide) (by decide),
   ((total_price_equation badPriceItem).2.2.2 (by decide)).1 baseState 1⟩

/-- Claim C3, counterexample: a `failed` order row with every status
timestamp NULL satisfies every `app.orders` constraint (the constraint's
last disjunct is `status = 'failed'` with no timestamp requirement, and no
`failed_at` column exists), so it is accepted, not rejected. -/
theorem status_timestamp_counterexample :
    ordersRowCheck failedOrder = true ∧
    failedOrder.status ≠ OrderStatus.pending ∧
    failedOrder.processed_at = none ∧ failedOrder.confirmed_at = none ∧
    failedOrder.shipped_at = none ∧ failedOrder.delivered_at = none ∧
    failedOrder.cancelled_at = none := by decide

/-- Claim C3 (amended): an accepted `app.orders` row in status processing,
confirmed, shipped, delivered, or cancelled has its corresponding timestamp
non-null; `pending` and `failed` require no timestamp. -/
theorem status_requires_timestamp (o : OrderRow) (h : ordersRowCheck o = true) :
    (o.status = OrderStatus.processing → o.processed_at.isSome = true) ∧
    (o.status = OrderStatus.confirmed → o.confirmed_at.isSome = true) ∧
    (o.status = OrderStatus.shipped → o.shipped_at.isSome = true) ∧
    (o.status = OrderStatus.delivered → o.delivered_at.isSome = true) ∧
    (o.status = OrderStatus.cancelled → o.cancelled_at.isSome = true) := by
  have hv : valid_status_transitions o = true := by
    unfold ordersRowCheck at h
    simp only [Bool.and_eq_true] at h
    exact h.2
  unfold valid_status_transitions at hv
  refine ⟨?_, ?_, ?_, ?_, ?_⟩ <;> intro hs <;> simp [hs] at hv <;> exact hv

/-- Claim C3, witness: the amended theorem at a processing order. -/
theorem status_requires_timestamp_witness :
    processingOrder.processed_at.isSome = true :=
  (status_requires_timestamp processingOrder (by decide)).1 rfl

/-- Claim C4: `calculate_order_total` of an order with no item rows is 0
(not NULL), and deleting the last remaining item of an order drives its
`total_amount` to 0. -/
theorem empty_order_total_zero :
    (∀ items oid, items.filter (fun r => r.order_id == oid) = [] →
      calculate_order_total items oid = 0) ∧
    (∀ st itemId oldRow now st',
      itemsKeysOK st.order_items = true →
      lookupItem st itemId = some oldRow →
      (∀ s ∈ st.order_items, s.order_id = oldRow.order_id → s.id = itemId) →
      tryMutation st (Mutation.deleteItem itemId now) = some st' →
      ∀ o ∈ st'.orders, o.id = oldRow.order_id → o.total_amount = 0) := by
  constructor
  · intro items oid h
    unfold calculate_order_total
    rw [h]
    rfl
  · intro st itemId oldRow now st' hkeys hlook hlast htry
    simp only [tryMutation, hlook] at htry
    split at htry
    · injection htry with h
      subst h
      intro o ho hoid
      have hco : coalesceOrderId none (some oldRow) = some oldRow.order_id := rfl
      simp only [update_order_total, hco] at ho hoid ⊢
      rw [List.mem_map] at ho
      obtain ⟨o0, ho0, rfl⟩ := ho
      have hz : calculate_order_total
          (st.order_items.filter (fun s => !(s.id == itemId))) oldRow.order_id = 0 := by
        apply calc_zero_of_none
        intro s hs
        rw [List.mem_filter] at hs
        obtain ⟨hs1, hs2⟩ := hs
        intro hso
        have hsi := hlast s hs1 hso
        simp [hsi] at hs2
      have hid : o0.id = oldRow.order_id := by
        by_cases h0 : o0.id = oldRow.order_id
        · exact h0
        · rw [if_neg (by simpa using h0)] at hoid
          exact hoid
      simp [hid, hz]
    · exact absurd htry (by simp)

/-- Claim C4, witness: the empty-table total and the delete-last-item
consequence at `stOneItem`. -/
theorem empty_order_total_zero_witness :
    calculate_order_total [] 1 = 0 ∧ orderAfterDelete.total_amount = 0 :=
  ⟨empty_order_total_zero.1 [] 1 rfl,
   empty_order_total_zero.2 stOneItem 11 item1 3
     (applyMutation stOneItem (Mutation.deleteItem 11 3))
     (by decide) (by decide) (by decide) (by decide)
     orderAfterDelete (by decide) (by decide)⟩

/-- Claim C5: a mutation whose transaction aborts leaves the database state
exactly as it was (no partial update of `order_items` or of the parent
order survives, nothing is retried or swallowed), and a row-constraint or
key-constraint violation on insert does abort. -/
theorem constraint_violation_aborts (st : DBState) :
    (∀ m, tryMutation st m = none → applyMutation st m = st) ∧
    (∀ r now,
      orderItemRowCheck r = false ∨ itemsKeysOK (st.order_items ++ [r]) = false →
      tryMutation st (Mutation.insertItem r now) = none) := by
  constructor
  · intro m h
    rw [applyMutation, h]
    rfl
  · intro r now h
    rcases h with h | h <;> simp [tryMutation, h]

/-- Claim C5, witness: the bad-price insert aborts and the state is exactly
the prior state. -/
theorem constraint_violation_aborts_witness :
    tryMutation baseState (Mutation.insertItem badPriceItem 1) = none ∧
    applyMutation baseState (Mutation.insertItem badPriceItem 1) = baseState := by
  have h := (constraint_violation_aborts baseState).2 badPriceItem 1 (Or.inl (by decide))
  exact ⟨h, (constraint_violation_aborts baseState).1 _ h⟩

/-- Claim C6: inserting an item with `quantity <= 0` or `unit_price < 0` is
rejected: the transaction aborts and no row is added. -/
theorem invalid_item_insert_rejected (st : DBState) (r : OrderItemRow) (now : Nat)
    (h : r.quantity ≤ 0 ∨ r.unit_price < 0) :
    tryMutation st (Mutation.insertItem r now) = none ∧
    applyMutation st (Mutation.insertItem r now) = st := by
  have hf : orderItemRowCheck r = false := by
    unfold orderItemRowCheck
    rcases h with h | h
    · rw [decide_eq_false (by omega : ¬ (0 < r.quantity))]
      simp
    · rw [decide_eq_false (by omega : ¬ (0 ≤ r.unit_price))]
      simp
  have h1 : tryMutation st (Mutation.insertItem r now) = none := by
    simp [tryMutation, hf]
  exact ⟨h1, by rw [applyMutation, h1]; rfl⟩

/-- Claim C6, witness: the zero-quantity and the negative-price inserts
are both rejected on the base state. -/
theorem invalid_item_insert_rejected_witness :
    (tryMutation baseState (Mutation.insertItem zeroQtyItem 1) = none ∧
     applyMutation baseState (Mutation.insertItem zeroQtyItem 1) = baseState) ∧
    (tryMutation baseState (Mutation.insertItem negPriceItem 1) = none ∧
     applyMutation baseState (Mutation.insertItem negPriceItem 1) = baseState) :=
  ⟨invalid_item_insert_rejected baseState zeroQtyItem 1 (Or.inl (by decide)),
   invalid_item_insert_rejected baseState negPriceItem 1 (Or.inr (by decide))⟩

/-- Claim C7: the spec scenario, with amounts in cents (10.00 = 1000):
from the pending order with no items and total 0, inserting
item1 (quantity 2 at 1000) commits with total_price 2000 and drives the
order total to 2000; inserting item2 (quantity 1 at 500) drives it to
2500; deleting item1 drives it to 500. -/
theorem example_scenario :
    orderTotal baseState 1 = some 0 ∧
    (tryMutation baseState (Mutation.insertItem item1 1)).isSome = true ∧
    item1.total_price = 2000 ∧
    orderTotal scen1 1 = some 2000 ∧
    (tryMutation scen1 (Mutation.insertItem item2 2)).isSome = true ∧
    orderTotal scen2 1 = some 2500 ∧
    (tryMutation scen2 (Mutation.deleteItem 11 3)).isSome = true ∧
    orderTotal scen3 1 = some 500 := by decide

/-- Claim C8 (code bug): as soon as `app.orders` holds any row, the
generation loop never exits, whatever the random draws, because its EXISTS
test compares the `order_number` column with itself instead of with the
generated candidate. -/
theorem order_number_generation_diverges (o : OrderRow) (orders : List OrderRow)
    (dateStr : String) (rs : List Nat) :
    generate_order_number (o :: orders) dateStr rs = none := by
  induction rs with
  | nil => rfl
  | cons r rs ih =>
    rw [generate_order_number, if_pos]
    · exact ih
    · simp [orderNumberExistsCheck]

/-- Claim C9: an UPDATE that moves an item from order A to order B
recomputes only order B (the trigger uses `NEW.order_id`): order A's row is
carried over untouched, while every row of order B carries the recomputed
total and the refreshed timestamp. -/
theorem update_recomputes_only_new_order (st : DBState) (itemId : Nat)
    (r : OrderItemRow) (now : Nat) (oldRow : OrderItemRow) (st' : DBState)
    (hlook : lookupItem st itemId = some oldRow)
    (hmove : r.order_id ≠ oldRow.order_id)
    (hcommit : tryMutation st (Mutation.updateItem itemId r now) = some st') :
    (∀ o ∈ st.orders, o.id = oldRow.order_id → o ∈ st'.orders) ∧
    (∀ o ∈ st'.orders, o.id = r.order_id →
      o.total_amount = calculate_order_total st'.order_items r.order_id ∧
      o.updated_at = now) := by
  simp only [tryMutation, hlook] at hcommit
  split at hcommit
  · split at hcommit
    · injection hcommit with h
      subst h
      constructor
      · intro o ho hoid
        simp only [update_order_total, coalesceOrderId]
        rw [List.mem_map]
        refine ⟨o, ho, ?_⟩
        have hne : ¬ o.id = r.order_id := by
          rw [hoid]; exact fun hh => hmove hh.symm
        simp [hne]
      · intro o ho hoid
        simp only [update_order_total, coalesceOrderId] at ho ⊢
        rw [List.mem_map] at ho
        obtain ⟨o0, ho0, rfl⟩ := ho
        by_cases h0 : o0.id = r.order_id
        · simp [h0]
        · rw [if_neg (by simpa using h0)] at hoid ⊢
          exact absurd hoid h0
    · exact absurd hcommit (by simp)
  · exact absurd hcommit (by simp)

/-- Claim C9, witness: after the committed move of `item1` to order 2,
order 1's row is still present with its stale total. -/
theorem update_recomputes_only_new_order_witness :
    sampleOrder2000 ∈ (applyMutation stTwoOrders muMove).orders :=
  (update_recomputes_only_new_order stTwoOrders 11 movedItem 5 item1
    (applyMutation stTwoOrders muMove) (by decide) (by decide) (by decide)).1
    sampleOrder2000 (by decide) (by decide)

/-- Claim C10: the triggered write modifies only the `app.orders` rows
whose id equals `COALESCE(NEW.order_id, OLD.order_id)`, and in them only
`total_amount` and `updated_at`; the items table, every other orders row,
and every other column of the affected row are unchanged. -/
theorem trigger_frame_effect (st : DBState) (newRow oldRow : Option OrderItemRow)
    (now : Nat) (oid : Nat)
    (hco : coalesceOrderId newRow oldRow = some oid) :
    (update_order_total st newRow oldRow now).order_items = st.order_items ∧
    (update_order_total st newRow oldRow now).orders.length = st.orders.length ∧
    (∀ o' ∈ (update_order_total st newRow oldRow now).orders,
      ∃ o ∈ st.orders,
        (o.id ≠ oid → o' = o) ∧
        (o.id = oid → o' = { o with
          total_amount := calculate_order_total st.order_items oid,
          updated_at := now })) := by
  refine ⟨?_, ?_, ?_⟩
  · simp [update_order_total, hco]
  · simp [update_order_total, hco]
  · intro o' ho'
    simp only [update_order_total, hco] at ho'
    rw [List.mem_map] at ho'
    obtain ⟨o, ho, rfl⟩ := ho'
    refine ⟨o, ho, ?_, ?_⟩
    · intro hne
      simp [hne]
    · intro heq
      simp [heq]

/-- Claim C10, witness: the trigger run for an insert into order 1 leaves
the items table of `stOneItem` unchanged. -/
theorem trigger_frame_effect_witness :
    (update_order_total stOneItem (some item2) none 9).order_items
      = stOneItem.order_items :=
  (trigger_frame_effect stOneItem (some item2) none 9 1 (by decide)).1

end OrderDB
